import Mathlib

/-!
Shallow embedding of the payroll automation core of the
`jira-payroll-automation` repository:

* `payroll/models.py` — `PayrollPeriod.is_due_for_automation` (the due-check
  evaluator) and the automation-rule part of `PayrollPeriod.clean`;
* `payroll/serializers/payroll_period.py` — the automation-rule part of
  `PayrollPeriodSerializer.validate`;
* `payroll/services/payroll_processor.py` — `PayrollProcessor.run_payroll`,
  `_get_payroll_period`, `_complete_period`;
* `payroll/tasks.py` — `process_payroll_period`, `auto_run_payroll`, and the
  cache-lock acquire/release protocol used by the sweep.

Calendar dates are represented as integers (days on a linear day axis), which
is faithful to Python `datetime.date` equality and `date - timedelta(days=n)`
arithmetic.  JSON values occurring in automation rules are represented by the
`Value` type; Python exceptions by the `Exc` type; fallible Python code is
embedded as `Except Exc`-valued functions.
-/

/-- A JSON value as it can occur inside an `automation_rule` dict:
a string, an integer, or a non-string non-integer value (e.g. `null`,
a list, ...) whose only relevant behaviour is failing `str`/`int` casts. -/
inductive Value where
  | vStr : String → Value
  | vInt : Int → Value
  | vNone : Value
deriving Repr, DecidableEq

/-- Python exceptions relevant to the embedded code: `TypeError`,
`ValueError`, `NameError` (with the unresolved name), the repository's
`PayrollProcessorError` (with its message), and any other unexpected /
infrastructure exception (with its message). -/
inductive Exc where
  | typeError : Exc
  | valueError : Exc
  | nameError : String → Exc
  | processorError : String → Exc
  | other : String → Exc
deriving Repr, DecidableEq

/-- `str(e)` for the exceptions of `Exc`, as used when the code formats an
exception into an error message. -/
def excMsg : Exc → String
  | .typeError => "TypeError"
  | .valueError => "ValueError"
  | .nameError n => "name " ++ n ++ " is not defined"
  | .processorError m => m
  | .other m => m

/-- Digits-only string to number (no sign), `none` if empty or non-digit. -/
def natOfDigits (cs : List Char) : Option Nat :=
  if cs = [] then none
  else if cs.all Char.isDigit then
    some (cs.foldl (fun a c => a * 10 + (c.toNat - 48)) 0)
  else none

/-- Python `int(s)` on a string: optional sign followed by digits. -/
def parseIntStr (s : String) : Option Int :=
  match s.data with
  | [] => none
  | '-' :: rest => (natOfDigits rest).map (fun n => -(n : Int))
  | '+' :: rest => (natOfDigits rest).map (fun n => (n : Int))
  | cs => (natOfDigits cs).map (fun n => (n : Int))

/-- Python `int(x)`: identity on ints, digit parse on strings
(`ValueError` on failure), `TypeError` on other values. -/
def toInt : Value → Except Exc Int
  | .vInt n => .ok n
  | .vStr s =>
    match parseIntStr s with
    | some n => .ok n
    | none => .error .valueError
  | .vNone => .error .typeError

/-- Gregorian leap year. -/
def isLeap (y : Nat) : Bool :=
  (y % 4 == 0 && y % 100 != 0) || y % 400 == 0

/-- Days in a month of the proleptic Gregorian calendar. -/
def daysInMonth (y m : Nat) : Nat :=
  if m = 2 then (if isLeap y then 29 else 28)
  else if m = 4 ∨ m = 6 ∨ m = 9 ∨ m = 11 then 30
  else 31

/-- Day number of a calendar date on the linear day axis (days since
1970-01-01); the standard civil-from-days inverse.  All intermediate
quantities are nonnegative for `y ≥ 1`, so the rounding convention of
integer division does not matter. -/
def civilDays (y m d : Nat) : Int :=
  let yy : Int := if m ≤ 2 then (y : Int) - 1 else (y : Int)
  let era : Int := yy / 400
  let yoe : Int := yy - era * 400
  let mp : Int := ((m : Int) + 9) % 12
  let doy : Int := (153 * mp + 2) / 5 + (d : Int) - 1
  let doe : Int := yoe * 365 + yoe / 4 - yoe / 100 + doy
  era * 146097 + doe - 719468

/-- Split a character list on the dash separator. -/
def splitDash : List Char → List (List Char)
  | [] => [[]]
  | '-' :: rest => [] :: splitDash rest
  | c :: rest =>
    match splitDash rest with
    | [] => [[c]]
    | g :: gs => (c :: g) :: gs

/-- `datetime.strptime(s, "%Y-%m-%d").date()` on a string: three dash-joined
decimal fields forming a valid calendar date, as a day number. -/
def parseYmd (s : String) : Option Int :=
  match splitDash s.data with
  | [ys, ms, ds] =>
    match natOfDigits ys, natOfDigits ms, natOfDigits ds with
    | some y, some m, some d =>
      if 1 ≤ y ∧ y ≤ 9999 ∧ 1 ≤ m ∧ m ≤ 12 ∧ 1 ≤ d ∧ d ≤ daysInMonth y m then
        some (civilDays y m d)
      else none
    | _, _, _ => none
  | _ => none

/-- `datetime.strptime(v, "%Y-%m-%d")` applied to an arbitrary value:
`ValueError` on an unparseable string, `TypeError` on a non-string
(`strptime` requires a `str` argument). -/
def strptimeV : Value → Except Exc Int
  | .vStr s =>
    match parseYmd s with
    | some d => .ok d
    | none => .error .valueError
  | _ => .error .typeError

/-- The `automation_rule` JSON dict, restricted to its recognized keys
`run_on_date`, `days_before_end`, `cron` (each present with a value or
absent) plus the list of any unrecognized keys. -/
structure Rule where
  run_on_date : Option Value
  days_before_end : Option Value
  cron : Option Value
  extra : List String
deriving Repr, DecidableEq

/-- Python truthiness of the rule dict: nonempty. -/
def ruleTruthy (r : Rule) : Bool :=
  r.run_on_date.isSome || r.days_before_end.isSome || r.cron.isSome ||
    !r.extra.isEmpty

/-- A `PayrollPeriod` row, with dates as day numbers. -/
structure Period where
  id : Nat
  start_date : Int
  end_date : Int
  period_type : String
  automation_enabled : Bool
  automation_rule : Option Rule
  status : String
deriving Repr, DecidableEq

/-- The `cron` branch of `is_due_for_automation` (models.py lines 229-236):
a present `cron` key yields `True`; with no applicable key the result is
`False`. -/
def dueCron (rule : Rule) : Except Exc Bool :=
  match rule.cron with
  | some _ => .ok true
  | none => .ok false

/-- The `days_before_end` branch of `is_due_for_automation` (models.py lines
221-227): `int(...)` cast, target `end_date - days`, equality with today;
`ValueError`/`KeyError`/`TypeError` are caught and fall through. -/
def dueDays (p : Period) (today : Int) (rule : Rule) : Except Exc Bool :=
  match rule.days_before_end with
  | some v =>
    match toInt v with
    | .ok n => .ok (today == p.end_date - n)
    | .error _ => dueCron rule
  | none => dueCron rule

/-- `PayrollPeriod.is_due_for_automation` (models.py lines 192-236), with
`today` supplied explicitly.  The `run_on_date` branch catches only
`ValueError` and `KeyError`; a `TypeError` raised by `strptime` on a
non-string value propagates to the caller. -/
def is_due_for_automation (p : Period) (today : Int) : Except Exc Bool :=
  if !p.automation_enabled || p.status != "active" then .ok false
  else
    match p.automation_rule with
    | none => .ok false
    | some rule =>
      if !ruleTruthy rule then .ok false
      else
        match rule.run_on_date with
        | some v =>
          match strptimeV v with
          | .ok d => .ok (today == d)
          | .error .valueError => dueDays p today rule
          | .error e => .error e
        | none => dueDays p today rule

/-- The persistent store seen by the core: the `PayrollPeriod` table and the
per-employee salary/payment records (as `(employee_id, period_id)` pairs)
created by processing. -/
structure Store where
  periods : List Period
  records : List (Nat × Nat)
deriving Repr, DecidableEq

/-- `PayrollPeriod.objects.get(id=pid)` against an in-memory store: never an
infrastructure failure, `none` for `DoesNotExist`. -/
def dbGet (s : Store) (pid : Nat) : Except Exc (Option Period) :=
  .ok (s.periods.find? (fun q => q.id == pid))

/-- A store lookup that fails with an unexpected infrastructure exception
(e.g. the database is unavailable); used to exercise the `except Exception`
paths of the embedded code. -/
def dbDown (msg : String) : Store → Nat → Except Exc (Option Period) :=
  fun _ _ => .error (.other msg)

/-- `PayrollProcessor._get_payroll_period` (payroll_processor.py lines
155-168): `DoesNotExist` becomes a `PayrollProcessorError`; `completed` and
`cancelled` are rejected with a `PayrollProcessorError`; any other exception
from the lookup propagates. -/
def getPayrollPeriod (fetch : Store → Nat → Except Exc (Option Period))
    (s : Store) (pid : Nat) : Except Exc Period :=
  match fetch s pid with
  | .error e => .error e
  | .ok none =>
    .error (.processorError
      ("Payroll period with ID " ++ toString pid ++ " not found"))
  | .ok (some p) =>
    if p.status = "completed" then
      .error (.processorError
        ("Payroll period " ++ toString pid ++ " is already completed"))
    else if p.status = "cancelled" then
      .error (.processorError
        ("Payroll period " ++ toString pid ++ " is cancelled"))
    else .ok p

/-- The per-employee loop of `run_payroll` (payroll_processor.py lines
133-140): fold over the employee ids threading the record table, counting
successes and collecting formatted error strings; one employee's failure
never aborts the others.  The body of `_process_employee_payroll` (salary
collation, deduction arithmetic, record writes) is abstracted as the
`procEmp` argument, which may fail with any exception. -/
def processEmployees (procEmp : Nat → List (Nat × Nat) → Except Exc (List (Nat × Nat))) :
    List Nat → List (Nat × Nat) → List (Nat × Nat) × Nat × List String
  | [], recs => (recs, 0, [])
  | e :: rest, recs =>
    match procEmp e recs with
    | .ok recs2 =>
      let r := processEmployees procEmp rest recs2
      (r.1, r.2.1 + 1, r.2.2)
    | .error ex =>
      let r := processEmployees procEmp rest recs
      (r.1, r.2.1,
        ("Error processing employee " ++ toString e ++ ": " ++ excMsg ex) :: r.2.2)

/-- `PayrollProcessor._complete_period` (payroll_processor.py lines 394-398):
write `status = completed` on the period row. -/
def completePeriods (ps : List Period) (pid : Nat) : List Period :=
  ps.map (fun q => if q.id == pid then { q with status := "completed" } else q)

/-- The summary dict built by `_generate_summary` (restricted to the fields
the specification's claims mention). -/
structure Summary where
  period_id : Nat
  processed_employees : Nat
  processing_errors : Nat
  error_details : List String
  status : String
deriving Repr, DecidableEq

/-- `PayrollProcessor.run_payroll` (payroll_processor.py lines 108-153):
validate the period, attempt every employee, mark the period completed
unconditionally, return the summary; the surrounding `except Exception`
re-raises any exception wrapped as a `PayrollProcessorError`.  The returned
store reflects the writes performed before the exception (none, in the
failing cases, since validation precedes every write). -/
def run_payroll (fetch : Store → Nat → Except Exc (Option Period))
    (procEmp : Nat → List (Nat × Nat) → Except Exc (List (Nat × Nat)))
    (employees : List Nat) (s : Store) (pid : Nat) :
    Except Exc Summary × Store :=
  match getPayrollPeriod fetch s pid with
  | .error e =>
    (.error (.processorError ("Payroll processing failed: " ++ excMsg e)), s)
  | .ok _ =>
    let loop := processEmployees procEmp employees s.records
    let s2 : Store := { periods := completePeriods s.periods pid, records := loop.1 }
    (.ok { period_id := pid
           processed_employees := loop.2.1
           processing_errors := loop.2.2.length
           error_details := loop.2.2
           status := "completed" }, s2)

/-- The single-run report dict of `process_payroll_period`
(`{'period_id', 'status', 'message'?, 'result'?}`). -/
structure RunResult where
  period_id : Nat
  status : String
  message : Option String
  result : Option Summary
deriving Repr, DecidableEq

/-- Observable outcome of one invocation of the `process_payroll_period`
task: the returned dict or raised exception, the resulting store, and how
many times `PayrollProcessor.run_payroll` was invoked. -/
structure TaskOut where
  outcome : Except Exc RunResult
  store : Store
  procCalls : Nat
deriving Repr

/-- `process_payroll_period` (tasks.py lines 112-176).  The body re-fetches
the period (`DoesNotExist` → `PayrollProcessorError`; any other lookup
exception propagates), returns the benign `already_completed` dict for a
completed period, rejects any other non-active status, and otherwise runs
the processor.  The `except PayrollProcessorError` handler re-raises
immediately (no retry).  The `except Exception` handler's first statement
evaluates `self.request.retries`, but the function is declared with
`bind=True` while taking only `period_id`, so the name `self` is unbound in
the function scope and this handler raises `NameError` instead of retrying. -/
def process_payroll_period
    (fetchT fetchP : Store → Nat → Except Exc (Option Period))
    (procEmp : Nat → List (Nat × Nat) → Except Exc (List (Nat × Nat)))
    (employees : List Nat) (s : Store) (pid : Nat) : TaskOut :=
  let inner : Except Exc RunResult × Store × Nat :=
    match fetchT s pid with
    | .error e => (.error e, s, 0)
    | .ok none =>
      (.error (.processorError ("PayrollPeriod " ++ toString pid ++ " not found")),
        s, 0)
    | .ok (some p) =>
      if p.status = "completed" then
        (.ok { period_id := pid, status := "already_completed"
               message := some "Period was already processed", result := none },
          s, 0)
      else if p.status != "active" then
        (.error (.processorError
          ("Period " ++ toString pid ++ " has status " ++ p.status ++ ", cannot process")),
          s, 0)
      else
        match run_payroll fetchP procEmp employees s pid with
        | (.ok sum, s2) =>
          (.ok { period_id := pid, status := "completed"
                 message := none, result := some sum }, s2, 1)
        | (.error e, s2) => (.error e, s2, 1)
  match inner with
  | (.ok r, s2, c) => ⟨.ok r, s2, c⟩
  | (.error (.processorError m), s2, c) => ⟨.error (.processorError m), s2, c⟩
  | (.error _, s2, c) => ⟨.error (.nameError "self"), s2, c⟩

/-- Accumulator of one sweep: the cache's lock key set (period ids whose
`payroll_processing_{id}` key is set) and the three report lists. -/
structure SweepAcc where
  cache : List Nat
  processed : List (Nat × RunResult)
  skipped : List (Nat × String)
  failed : List (Nat × String)
deriving Repr

/-- One iteration of the per-period loop of `auto_run_payroll` (tasks.py
lines 47-92) for the period `p`: evaluate the due-check (an exception lands
in `failed` as an evaluation error); skip when the lock key is present;
otherwise set the lock, run the single-period processing `proc` (its result
or exception recorded in `processed`/`failed`), and delete the lock key in
the `finally` block. -/
def sweepStep (today : Int) (proc : Nat → Except Exc RunResult)
    (acc : SweepAcc) (p : Period) : SweepAcc :=
  match is_due_for_automation p today with
  | .error e =>
    { acc with failed := acc.failed ++ [(p.id, "Evaluation error: " ++ excMsg e)] }
  | .ok false => acc
  | .ok true =>
    if acc.cache.contains p.id then
      { acc with skipped := acc.skipped ++ [(p.id, "Already processing")] }
    else
      let cache1 := p.id :: acc.cache
      let acc1 :=
        match proc p.id with
        | .ok r => { acc with processed := acc.processed ++ [(p.id, r)] }
        | .error e => { acc with failed := acc.failed ++ [(p.id, excMsg e)] }
      { acc1 with cache := cache1.erase p.id }

/-- The sweep report dict returned by `auto_run_payroll` (tasks.py lines
94-102). -/
structure SweepSummary where
  processed_count : Nat
  skipped_count : Nat
  failed_count : Nat
  processed : List (Nat × RunResult)
  skipped : List (Nat × String)
  failed : List (Nat × String)
deriving Repr

/-- `auto_run_payroll` (tasks.py lines 38-109): fetch all periods (a fetch
failure aborts the sweep and re-raises), filter to
`automation_enabled ∧ status = active`, run the per-period loop, and
aggregate the report.  `proc` is the single-period processing call
(`process_payroll_period(period.id)`), which may raise any exception;
`cache0` is the initial lock key set.  The result also carries the final
lock key set. -/
def auto_run_payroll (today : Int) (proc : Nat → Except Exc RunResult)
    (fetch : Except Exc (List Period)) (cache0 : List Nat) :
    Except Exc (SweepSummary × List Nat) :=
  match fetch with
  | .error e => .error e
  | .ok periods =>
    let eligible := periods.filter
      (fun p => p.automation_enabled && p.status == "active")
    let acc := eligible.foldl (sweepStep today proc)
      { cache := cache0, processed := [], skipped := [], failed := [] }
    .ok ({ processed_count := acc.processed.length
           skipped_count := acc.skipped.length
           failed_count := acc.failed.length
           processed := acc.processed
           skipped := acc.skipped
           failed := acc.failed }, acc.cache)

/-- One sweep worker racing on the same period's lock key, as the acquire
protocol is written in `auto_run_payroll` (tasks.py lines 56-65):
program counter 0 = about to execute `cache.get(cache_key)`;
1 = the get returned nothing, about to execute `cache.set(cache_key, ...)`
and then process; 2 = done (either skipped after observing the key, or
processing after setting it). -/
structure LockWorker where
  pc : Nat
  sawAbsent : Bool
  proceeded : Bool
deriving Repr, DecidableEq

/-- One atomic cache operation of a worker against the shared key (`locked` =
the key exists): the `get` step observes and branches; the `set` step sets
the key and proceeds to process the period.  The get and the set are two
separate cache operations, with no atomic check-and-set combining them. -/
def lockWorkerStep (locked : Bool) (w : LockWorker) : Bool × LockWorker :=
  if w.pc = 0 then
    if locked then (locked, { w with pc := 2 })
    else (locked, { w with pc := 1, sawAbsent := true })
  else if w.pc = 1 then (true, { w with pc := 2, proceeded := true })
  else (locked, w)

/-- Interleaved execution of two sweep workers on the same lock key under a
schedule (`true` = worker 1 performs its next cache operation, `false` =
worker 2 does). -/
def lockRace : List Bool → Bool × LockWorker × LockWorker → Bool × LockWorker × LockWorker
  | [], st => st
  | b :: rest, (locked, w1, w2) =>
    if b then
      let s1 := lockWorkerStep locked w1
      lockRace rest (s1.1, s1.2, w2)
    else
      let s2 := lockWorkerStep locked w2
      lockRace rest (s2.1, w1, s2.2)

/-- Both workers at their first cache operation, lock key absent. -/
def lockRaceInit : Bool × LockWorker × LockWorker :=
  (false, ⟨0, false, false⟩, ⟨0, false, false⟩)

/-- The automation-rule part of `PayrollPeriod.clean` (models.py lines
147-159): a falsy (absent or empty) rule is skipped; a truthy rule must be a
dict (always, in this embedding) containing at least one of the keys
`cron`, `days_before_end`, `run_on_date` — the values are not inspected. -/
def modelCleanRule : Option Rule → Except String Unit
  | none => .ok ()
  | some r =>
    if !ruleTruthy r then .ok ()
    else if r.run_on_date.isSome || r.days_before_end.isSome || r.cron.isSome then
      .ok ()
    else
      .error "Automation rule must contain at least one of: cron, days_before_end, run_on_date"

/-- The `days_before_end` check of `PayrollPeriodSerializer.validate`
(payroll_period.py lines 114-122): `int(...)` cast with a negative result
re-raised as `ValueError`; `ValueError`/`TypeError` become the validation
error. -/
def serializerCheckDays (r : Rule) : Except String Unit :=
  match r.days_before_end with
  | some v =>
    match toInt v with
    | .ok n =>
      if n < 0 then .error "days_before_end must be a non-negative integer"
      else .ok ()
    | .error _ => .error "days_before_end must be a non-negative integer"
  | none => .ok ()

/-- The automation-rule part of `PayrollPeriodSerializer.validate`
(payroll_period.py lines 89-122): falsy rule skipped; at least one valid key
required; then the `run_on_date` format check (`ValueError`/`TypeError`
become the validation error) and the `days_before_end` check. -/
def serializerValidateRule : Option Rule → Except String Unit
  | none => .ok ()
  | some r =>
    if !ruleTruthy r then .ok ()
    else if !(r.run_on_date.isSome || r.days_before_end.isSome || r.cron.isSome) then
      .error "Automation rule must contain at least one of: cron, days_before_end, run_on_date"
    else
      match r.run_on_date with
      | some v =>
        match strptimeV v with
        | .ok _ => serializerCheckDays r
        | .error _ => .error "run_on_date must be in YYYY-MM-DD format"
      | none => serializerCheckDays r

/-- `x` is a normal return (no exception raised). -/
def excOk {α : Type} : Except Exc α → Bool
  | .ok _ => true
  | .error _ => false

/-- An active, automation-enabled period whose rule has a non-string
`run_on_date` value (here the integer 5). -/
def c4period : Period :=
  { id := 1, start_date := 0, end_date := 100, period_type := "monthly"
    automation_enabled := true
    automation_rule := some { run_on_date := some (.vInt 5), days_before_end := none, cron := none, extra := [] }
    status := "active" }

/-- A cancelled period and a store holding only it, for the witnesses. -/
def cancelledPeriod : Period :=
  { id := 3, start_date := 0, end_date := 30, period_type := "monthly"
    automation_enabled := true, automation_rule := none, status := "cancelled" }

/-- An active period with id 5 used by the C7 witness. -/
def c7period : Period :=
  { id := 5, start_date := 0, end_date := 30, period_type := "monthly"
    automation_enabled := true, automation_rule := none, status := "active" }

/-- A per-employee outcome where employee 2 fails and the others write one
record each. -/
def c7procEmp : Nat → List (Nat × Nat) → Except Exc (List (Nat × Nat)) :=
  fun e recs => if e == 2 then .error (.other "boom") else .ok (recs ++ [(e, 5)])

/-- The store of the C8 failing input: one active period with id 1. -/
def c8period : Period :=
  { id := 1, start_date := 0, end_date := 30, period_type := "monthly"
    automation_enabled := true, automation_rule := none, status := "active" }

/-- The active period of the C1 witness and the store holding it. -/
def c1period : Period :=
  { id := 4, start_date := 0, end_date := 30, period_type := "monthly"
    automation_enabled := true, automation_rule := none, status := "active" }

/-- First due period of the sweep witness: active, automation enabled,
rule `{days_before_end: 0}`, ending on day 10 (the witness's today). -/
def c3p1 : Period :=
  { id := 1, start_date := 0, end_date := 10, period_type := "monthly"
    automation_enabled := true
    automation_rule := some { run_on_date := none, days_before_end := some (.vInt 0)
                              cron := none, extra := [] }
    status := "active" }

/-- Second due period of the sweep witness (its processing will raise). -/
def c3p2 : Period :=
  { id := 2, start_date := 0, end_date := 10, period_type := "weekly"
    automation_enabled := true
    automation_rule := some { run_on_date := none, days_before_end := some (.vInt 0)
                              cron := none, extra := [] }
    status := "active" }

/-- Third due period of the sweep witness. -/
def c3p3 : Period :=
  { id := 3, start_date := 0, end_date := 10, period_type := "custom"
    automation_enabled := true
    automation_rule := some { run_on_date := none, days_before_end := some (.vInt 0)
                              cron := none, extra := [] }
    status := "active" }

/-- The eligible periods of the sweep witness. -/
def c3periods : List Period := [c3p1, c3p2, c3p3]

/-- Single-period processing for the sweep witness: period 2 raises, the
others return a completed run dict. -/
def c3proc : Nat → Except Exc RunResult :=
  fun i =>
    if i == 2 then .error (.other "Processing failed")
    else .ok { period_id := i, status := "completed", message := none, result := none }

/-- The report the witness sweep produces. -/
def c3rep : SweepSummary :=
  { processed_count := 2, skipped_count := 0, failed_count := 1
    processed := [(1, { period_id := 1, status := "completed", message := none, result := none }),
                  (3, { period_id := 3, status := "completed", message := none, result := none })]
    skipped := []
    failed := [(2, "Processing failed")] }

/-- The `days_before_end`/`cron` tail of the evaluator never raises:
every cast failure is caught and falls through. -/
theorem dueDays_excOk (p : Period) (today : Int) (rule : Rule) :
    excOk (dueDays p today rule) = true := by
  unfold dueDays dueCron
  cases rule.days_before_end with
  | none => cases rule.cron <;> rfl
  | some v => cases htoi : toInt v with
    | ok n => simp [htoi, excOk]
    | error e => cases rule.cron <;> simp [htoi, excOk]

/-- A sanity check of the evaluator on the repository's own test scenario
(tests_automation.py: `days_before_end = 3`, end three days from today). -/
example :
    is_due_for_automation
      { id := 1, start_date := 0, end_date := 13, period_type := "monthly"
        automation_enabled := true
        automation_rule := some { run_on_date := none, days_before_end := some (.vInt 3), cron := none, extra := [] }
        status := "active" } 10 = .ok true := rfl

example :
    is_due_for_automation
      { id := 2, start_date := 0, end_date := 20, period_type := "monthly"
        automation_enabled := true
        automation_rule := some { run_on_date := none, days_before_end := some (.vInt 3), cron := none, extra := [] }
        status := "active" } 10 = .ok false := rfl

example : parseYmd "2024-02-29" = some (civilDays 2024 2 29) := rfl

example : parseYmd "2024-02-30" = none := rfl

example : civilDays 1970 1 1 = 0 := rfl

/-- C4 counterexample: the evaluator is not total.  On a rule whose
`run_on_date` value is a non-string, `strptime` raises `TypeError`, which
the `except (ValueError, KeyError)` clause does not catch, so
`is_due_for_automation` raises instead of falling through. -/
theorem C4_counterexample_nonstring_raises :
    is_due_for_automation c4period 50 = .error .typeError := rfl

/-- C4 (amended): the evaluator never raises provided every present
`run_on_date` value is a string; an unparseable-string `run_on_date` and a
non-castable `days_before_end` each fall through to the next rule key in
priority order, and with no applicable key (no `cron`) the result is false.
(As the counterexample shows, a non-string `run_on_date` value does raise.) -/
theorem C4_amended_totality :
    ∀ (p : Period) (today : Int),
      ((∀ rule, p.automation_rule = some rule →
          ∀ v, rule.run_on_date = some v → ∃ s, v = .vStr s) →
        excOk (is_due_for_automation p today) = true)
    ∧ (∀ rule s v, p.automation_rule = some rule →
        rule.run_on_date = some (.vStr s) → parseYmd s = none →
        rule.days_before_end = some v → excOk (toInt v) = false →
        rule.cron = none →
        is_due_for_automation p today = .ok false) := by
  intro p today
  constructor
  · intro hstr
    unfold is_due_for_automation
    by_cases hgate : (!p.automation_enabled || p.status != "active") = true
    · simp [hgate, excOk]
    · simp only [hgate]
      cases hrule : p.automation_rule with
      | none => simp [excOk]
      | some rule =>
        by_cases htr : (!ruleTruthy rule) = true
        · simp [htr, excOk]
        · simp only [htr]
          cases hrod : rule.run_on_date with
          | none => simp [dueDays_excOk]
          | some v =>
            obtain ⟨s, rfl⟩ := hstr rule hrule v hrod
            cases hp : parseYmd s with
            | some d => simp [strptimeV, hp, excOk]
            | none => simp [strptimeV, hp, dueDays_excOk]
  · intro rule s v hrule hrod hparse hdays htoi hcron
    have hterr : ∃ e, toInt v = .error e := by
      cases h : toInt v with
      | ok n => rw [h] at htoi; simp [excOk] at htoi
      | error e => exact ⟨e, rfl⟩
    obtain ⟨e, he⟩ := hterr
    unfold is_due_for_automation
    by_cases hgate : (!p.automation_enabled || p.status != "active") = true
    · simp [hgate]
    · simp only [hgate]
      have htr : ruleTruthy rule = true := by
        unfold ruleTruthy
        simp [hrod]
      simp only [hrule, htr, hrod]
      simp [strptimeV, hparse, dueDays, he, dueCron, hdays, hcron]

/-- C4 witness: both parts of the amended theorem at concrete inputs — a
rule with an unparseable-string `run_on_date` and a non-castable
`days_before_end` evaluates without raising, to false. -/
theorem C4_amended_totality_witness :
    excOk (is_due_for_automation
      { id := 7, start_date := 0, end_date := 50, period_type := "monthly"
        automation_enabled := true
        automation_rule := some { run_on_date := some (.vStr "not-a-date")
                                  days_before_end := some (.vStr "xyz")
                                  cron := none, extra := [] }
        status := "active" } 3) = true
    ∧ is_due_for_automation
      { id := 7, start_date := 0, end_date := 50, period_type := "monthly"
        automation_enabled := true
        automation_rule := some { run_on_date := some (.vStr "not-a-date")
                                  days_before_end := some (.vStr "xyz")
                                  cron := none, extra := [] }
        status := "active" } 3 = .ok false := by
  constructor
  · exact (C4_amended_totality
      { id := 7, start_date := 0, end_date := 50, period_type := "monthly"
        automation_enabled := true
        automation_rule := some { run_on_date := some (.vStr "not-a-date")
                                  days_before_end := some (.vStr "xyz")
                                  cron := none, extra := [] }
        status := "active" } 3).1
      (by intro rule hr v hv; cases hr; cases hv; exact ⟨"not-a-date", rfl⟩)
  · exact (C4_amended_totality
      { id := 7, start_date := 0, end_date := 50, period_type := "monthly"
        automation_enabled := true
        automation_rule := some { run_on_date := some (.vStr "not-a-date")
                                  days_before_end := some (.vStr "xyz")
                                  cron := none, extra := [] }
        status := "active" } 3).2
      { run_on_date := some (.vStr "not-a-date")
        days_before_end := some (.vStr "xyz")
        cron := none, extra := [] }
      "not-a-date" (.vStr "xyz") rfl rfl (by decide) rfl (by decide) rfl

/-- C5: for an active, automation-enabled period whose rule is exactly
`{days_before_end: N}` with `N` an integer, the evaluator is due precisely
when today equals `end_date - N` — and therefore false on every other day,
in particular every later day (no retroactive firing). -/
theorem C5_days_before_end_equality_only :
    ∀ (p : Period) (n : Int) (today : Int),
      p.automation_enabled = true → p.status = "active" →
      p.automation_rule = some { run_on_date := none
                                 days_before_end := some (.vInt n)
                                 cron := none, extra := [] } →
      (is_due_for_automation p today = .ok true ↔ today = p.end_date - n)
      ∧ (today ≠ p.end_date - n → is_due_for_automation p today = .ok false) := by
  intro p n today hen hst hrule
  have hev : is_due_for_automation p today = .ok (today == p.end_date - n) := by
    unfold is_due_for_automation
    simp [hen, hst, hrule, ruleTruthy, dueDays, toInt]
  rw [hev]
  refine ⟨⟨fun h => ?_, fun h => ?_⟩, fun hne => ?_⟩
  · simpa using h
  · simp [h]
  · simp [hne]

/-- C5 witness: the repository's own test scenario — `days_before_end = 3`,
end date three days after today fires today and not tomorrow. -/
theorem C5_days_before_end_equality_only_witness :
    (is_due_for_automation
      { id := 11, start_date := -27, end_date := 13, period_type := "monthly"
        automation_enabled := true
        automation_rule := some { run_on_date := none
                                  days_before_end := some (.vInt 3)
                                  cron := none, extra := [] }
        status := "active" } 10 = .ok true)
    ∧ (is_due_for_automation
      { id := 11, start_date := -27, end_date := 13, period_type := "monthly"
        automation_enabled := true
        automation_rule := some { run_on_date := none
                                  days_before_end := some (.vInt 3)
                                  cron := none, extra := [] }
        status := "active" } 11 = .ok false) := by
  constructor
  · exact (C5_days_before_end_equality_only
      { id := 11, start_date := -27, end_date := 13, period_type := "monthly"
        automation_enabled := true
        automation_rule := some { run_on_date := none
                                  days_before_end := some (.vInt 3)
                                  cron := none, extra := [] }
        status := "active" } 3 10 rfl rfl rfl).1.mpr (by decide)
  · exact (C5_days_before_end_equality_only
      { id := 11, start_date := -27, end_date := 13, period_type := "monthly"
        automation_enabled := true
        automation_rule := some { run_on_date := none
                                  days_before_end := some (.vInt 3)
                                  cron := none, extra := [] }
        status := "active" } 3 11 rfl rfl rfl).2 (by decide)

/-- C9 counterexample: write-time validation in the API serializer rejects a
negative `days_before_end` rather than accepting it — `int(...)` yields a
negative value, the code re-raises `ValueError`, and the caught exception
becomes the validation error. -/
theorem C9_counterexample_serializer_rejects_negative :
    serializerValidateRule (some { run_on_date := none
                                   days_before_end := some (.vInt (-1))
                                   cron := none, extra := [] })
      = .error "days_before_end must be a non-negative integer" := rfl

/-- C9 (amended): a negative `days_before_end` is rejected by the API
serializer's write-time validation, but accepted by the model-level `clean`
(which checks only key presence); the due-check evaluator accepts it without
raising and merely never matches it — for every period with rule
`{days_before_end: N}`, `N < 0`, and every today not exceeding `end_date`,
the evaluator returns false. -/
theorem C9_negative_days_never_matches :
    ∀ (p : Period) (n : Int) (today : Int),
      n < 0 →
      (modelCleanRule (some { run_on_date := none
                              days_before_end := some (.vInt n)
                              cron := none, extra := [] }) = .ok ())
      ∧ (p.automation_rule = some { run_on_date := none
                                    days_before_end := some (.vInt n)
                                    cron := none, extra := [] } →
         today ≤ p.end_date →
         is_due_for_automation p today = .ok false) := by
  intro p n today hneg
  constructor
  · unfold modelCleanRule
    simp [ruleTruthy]
  · intro hrule htoday
    unfold is_due_for_automation
    by_cases hgate : (!p.automation_enabled || p.status != "active") = true
    · simp [hgate]
    · simp only [hgate]
      have hne : (today == p.end_date - n) = false := by
        have : today ≠ p.end_date - n := by omega
        simp [this]
      simp [hrule, ruleTruthy, dueDays, toInt, hne]

/-- C9 witness: `days_before_end = -1` passes the model-level `clean` and
evaluates to false the day the period ends. -/
theorem C9_negative_days_never_matches_witness :
    (modelCleanRule (some { run_on_date := none
                            days_before_end := some (.vInt (-1))
                            cron := none, extra := [] }) = .ok ())
    ∧ (is_due_for_automation
        { id := 12, start_date := 0, end_date := 30, period_type := "monthly"
          automation_enabled := true
          automation_rule := some { run_on_date := none
                                    days_before_end := some (.vInt (-1))
                                    cron := none, extra := [] }
          status := "active" } 30 = .ok false) := by
  constructor
  · exact (C9_negative_days_never_matches
      { id := 12, start_date := 0, end_date := 30, period_type := "monthly"
        automation_enabled := true
        automation_rule := some { run_on_date := none
                                  days_before_end := some (.vInt (-1))
                                  cron := none, extra := [] }
        status := "active" } (-1) 30 (by decide)).1
  · exact (C9_negative_days_never_matches
      { id := 12, start_date := 0, end_date := 30, period_type := "monthly"
        automation_enabled := true
        automation_rule := some { run_on_date := none
                                  days_before_end := some (.vInt (-1))
                                  cron := none, extra := [] }
        status := "active" } (-1) 30 (by decide)).2 rfl (by decide)

/-- C2: the acquire protocol of `auto_run_payroll` is a separate
`cache.get` followed by `cache.set`, not an atomic check-and-set.  Under
the interleaving get, get, set, set — both workers racing on the same
period's lock key starting from an absent key — both observe the key
absent and both proceed to process the period, violating mutual
exclusion. -/
theorem C2_lock_race_both_proceed :
    ((lockRace [true, false, true, false] lockRaceInit).2.1.proceeded = true)
    ∧ ((lockRace [true, false, true, false] lockRaceInit).2.2.proceeded = true)
    ∧ ((lockRace [true, false, true, false] lockRaceInit).2.1.sawAbsent = true)
    ∧ ((lockRace [true, false, true, false] lockRaceInit).2.2.sawAbsent = true) := by
  decide

/-- C6: running the Payroll Processor against a cancelled period, or a
period id that does not exist, raises the distinguished
`PayrollProcessorError` (wrapped by the `except Exception` clause of
`run_payroll`) and leaves the store unchanged: no status transition, no
payment or salary records. -/
theorem C6_terminal_state_rejection :
    ∀ (procEmp : Nat → List (Nat × Nat) → Except Exc (List (Nat × Nat)))
      (employees : List Nat) (s : Store) (pid : Nat),
      (∀ p, s.periods.find? (fun q => q.id == pid) = some p →
        p.status = "cancelled" →
        run_payroll dbGet procEmp employees s pid =
          (.error (.processorError
            ("Payroll processing failed: Payroll period " ++ toString pid ++ " is cancelled")), s))
      ∧ (s.periods.find? (fun q => q.id == pid) = none →
        run_payroll dbGet procEmp employees s pid =
          (.error (.processorError
            ("Payroll processing failed: Payroll period with ID " ++ toString pid ++ " not found")), s)) := by
  intro procEmp employees s pid
  constructor
  · intro p hfind hst
    unfold run_payroll getPayrollPeriod dbGet
    rw [hfind]
    simp [hst, excMsg, String.append_assoc]
    rw [← String.append_assoc]
    rfl
  · intro hfind
    unfold run_payroll getPayrollPeriod dbGet
    rw [hfind]
    simp [excMsg, String.append_assoc]
    rw [← String.append_assoc]
    rfl

/-- C6 witness: the processor rejects the cancelled period with the
distinguished error and an unchanged store, and likewise a missing id. -/
theorem C6_terminal_state_rejection_witness :
    (run_payroll dbGet (fun _ r => .ok r) [1] { periods := [cancelledPeriod], records := [] } 3 =
      (.error (.processorError "Payroll processing failed: Payroll period 3 is cancelled"),
        { periods := [cancelledPeriod], records := [] }))
    ∧ (run_payroll dbGet (fun _ r => .ok r) [1] { periods := [cancelledPeriod], records := [] } 99 =
      (.error (.processorError "Payroll processing failed: Payroll period with ID 99 not found"),
        { periods := [cancelledPeriod], records := [] })) := by
  constructor
  · exact (C6_terminal_state_rejection (fun _ r => .ok r) [1]
      { periods := [cancelledPeriod], records := [] } 3).1 cancelledPeriod (by decide) rfl
  · exact (C6_terminal_state_rejection (fun _ r => .ok r) [1]
      { periods := [cancelledPeriod], records := [] } 99).2 (by decide)

/-- Every employee is attempted: the success count plus the recorded error
count equals the number of employees. -/
theorem processEmployees_attempts
    (procEmp : Nat → List (Nat × Nat) → Except Exc (List (Nat × Nat))) :
    ∀ (employees : List Nat) (recs : List (Nat × Nat)),
      (processEmployees procEmp employees recs).2.1
        + (processEmployees procEmp employees recs).2.2.length
        = employees.length := by
  intro employees
  induction employees with
  | nil => intro recs; rfl
  | cons e rest ih =>
    intro recs
    cases h : procEmp e recs with
    | ok recs2 =>
      simp only [processEmployees, h, List.length_cons]
      have := ih recs2
      omega
    | error ex =>
      simp only [processEmployees, h, List.length_cons]
      have := ih recs
      omega

/-- `_complete_period` really records the transition: after
`completePeriods`, the looked-up row carries `status = completed`. -/
theorem find_completePeriods :
    ∀ (ps : List Period) (pid : Nat) (p : Period),
      ps.find? (fun q => q.id == pid) = some p →
      (completePeriods ps pid).find? (fun q => q.id == pid)
        = some { p with status := "completed" } := by
  intro ps pid
  induction ps with
  | nil => intro p h; simp at h
  | cons q rest ih =>
    intro p h
    by_cases hq : (q.id == pid) = true
    · simp only [List.find?, hq] at h
      injection h with h2
      subst h2
      simp [completePeriods, List.find?, hq]
    · have hq2 : (q.id == pid) = false := by simpa using hq
      simp only [List.find?, hq2] at h
      simpa [completePeriods, List.find?, hq2] using ih p h

/-- C7: for a period satisfying the processor's preconditions (exists, not
completed, not cancelled) and any employees with any per-employee outcomes,
`run_payroll` succeeds, transitions the period to `completed`
unconditionally — even when some or all per-employee computations failed —
with the failures appearing only in the summary's error list, and every
employee accounted for (successes plus recorded errors equal the total). -/
theorem C7_completion_unconditional :
    ∀ (procEmp : Nat → List (Nat × Nat) → Except Exc (List (Nat × Nat)))
      (employees : List Nat) (s : Store) (pid : Nat) (p : Period),
      s.periods.find? (fun q => q.id == pid) = some p →
      p.status ≠ "completed" → p.status ≠ "cancelled" →
      run_payroll dbGet procEmp employees s pid =
        (.ok { period_id := pid
               processed_employees := (processEmployees procEmp employees s.records).2.1
               processing_errors := (processEmployees procEmp employees s.records).2.2.length
               error_details := (processEmployees procEmp employees s.records).2.2
               status := "completed" },
         { periods := completePeriods s.periods pid
           records := (processEmployees procEmp employees s.records).1 })
      ∧ (completePeriods s.periods pid).find? (fun q => q.id == pid)
          = some { p with status := "completed" }
      ∧ (processEmployees procEmp employees s.records).2.1
          + (processEmployees procEmp employees s.records).2.2.length
          = employees.length := by
  intro procEmp employees s pid p hfind hc1 hc2
  refine ⟨?_, find_completePeriods s.periods pid p hfind,
    processEmployees_attempts procEmp employees s.records⟩
  unfold run_payroll getPayrollPeriod dbGet
  rw [hfind]
  simp [hc1, hc2]

/-- C7 witness: with employees `[1, 2, 3]` and employee 2 failing, the run
still succeeds, the period ends `completed`, the one failure is in the
error list, and all three employees are accounted for. -/
theorem C7_completion_unconditional_witness :
    run_payroll dbGet c7procEmp [1, 2, 3] { periods := [c7period], records := [] } 5 =
      (.ok { period_id := 5
             processed_employees := 2
             processing_errors := 1
             error_details := ["Error processing employee 2: boom"]
             status := "completed" },
       { periods := [{ c7period with status := "completed" }]
         records := [(1, 5), (3, 5)] })
    ∧ (completePeriods [c7period] 5).find? (fun q => q.id == 5)
        = some { c7period with status := "completed" }
    ∧ (2 : Nat) + 1 = 3 := by
  have h := C7_completion_unconditional c7procEmp [1, 2, 3]
    { periods := [c7period], records := [] } 5 c7period (by decide)
    (by decide) (by decide)
  refine ⟨?_, h.2.1, by omega⟩
  have h1 := h.1
  rw [h1]
  rfl

/-- Every exception surfacing from `run_payroll` is the distinguished
`PayrollProcessorError`: the trailing `except Exception` wraps anything
else. -/
theorem run_payroll_error_is_processorError :
    ∀ (fetch : Store → Nat → Except Exc (Option Period))
      (procEmp : Nat → List (Nat × Nat) → Except Exc (List (Nat × Nat)))
      (employees : List Nat) (s : Store) (pid : Nat) (e : Exc) (s2 : Store),
      run_payroll fetch procEmp employees s pid = (.error e, s2) →
      ∃ m, e = .processorError m := by
  intro fetch procEmp employees s pid e s2 h
  unfold run_payroll at h
  cases hg : getPayrollPeriod fetch s pid with
  | error e0 =>
    rw [hg] at h
    simp only [Prod.mk.injEq] at h
    obtain ⟨h1, h2⟩ := h
    injection h1 with h3
    exact ⟨"Payroll processing failed: " ++ excMsg e0, h3.symm⟩
  | ok p =>
    rw [hg] at h
    simp at h

/-- C10: every exception raised inside `run_payroll` — including transient
infrastructure failures such as an unavailable store — is re-raised wrapped
as a `PayrollProcessorError`; and since `process_payroll_period` re-raises
`PayrollProcessorError` without retrying, a run that did invoke the
processor and failed surfaces exactly the processor's error (the unexpected-
exception branch is never reached for processor-internal errors). -/
theorem C10_processor_errors_never_retried :
    ∀ (fetchP : Store → Nat → Except Exc (Option Period))
      (procEmp : Nat → List (Nat × Nat) → Except Exc (List (Nat × Nat)))
      (employees : List Nat) (s : Store) (pid : Nat),
      (∀ e s2, run_payroll fetchP procEmp employees s pid = (.error e, s2) →
        ∃ m, e = .processorError m)
      ∧ (∀ p, s.periods.find? (fun q => q.id == pid) = some p →
          p.status = "active" →
          ∀ e s2, run_payroll fetchP procEmp employees s pid = (.error e, s2) →
          process_payroll_period dbGet fetchP procEmp employees s pid =
            ⟨.error e, s2, 1⟩) := by
  intro fetchP procEmp employees s pid
  constructor
  · intro e s2 h
    exact run_payroll_error_is_processorError fetchP procEmp employees s pid e s2 h
  · intro p hfind hact e s2 h
    obtain ⟨m, hm⟩ :=
      run_payroll_error_is_processorError fetchP procEmp employees s pid e s2 h
    subst hm
    unfold process_payroll_period dbGet
    rw [hfind]
    simp [hact, h]

/-- C10 witness: with the processor's own store lookup failing with an
infrastructure error, the surfaced exception is the wrapped
`PayrollProcessorError`, and the task layer re-raises exactly it. -/
theorem C10_processor_errors_never_retried_witness :
    (∃ m, Exc.processorError "Payroll processing failed: store unavailable"
      = .processorError m)
    ∧ process_payroll_period dbGet (dbDown "store unavailable")
        (fun _ r => .ok r) [] { periods := [c7period], records := [] } 5 =
      ⟨.error (.processorError "Payroll processing failed: store unavailable"),
        { periods := [c7period], records := [] }, 1⟩ := by
  have h := C10_processor_errors_never_retried (dbDown "store unavailable")
    (fun _ r => .ok r) [] { periods := [c7period], records := [] } 5
  constructor
  · exact h.1 (.processorError "Payroll processing failed: store unavailable")
      { periods := [c7period], records := [] } rfl
  · exact h.2 c7period (by decide) rfl
      (.processorError "Payroll processing failed: store unavailable")
      { periods := [c7period], records := [] } rfl

/-- C8: evaluation of `process_payroll_period` at the failing input.  When
the period lookup raises an unexpected infrastructure exception (store
unavailable) — an error the claim says is retried twice with a 300-second
delay — the `except Exception` handler evaluates `self.request.retries`,
but `self` is an unbound name (the task is declared `bind=True` yet takes
only `period_id`), so the call surfaces `NameError` and never retries.  The
second conjunct shows the business-error half of the claim does hold: a
`PayrollProcessorError` is re-raised immediately with no retry. -/
theorem C8_unexpected_error_hits_unbound_self :
    ((process_payroll_period (dbDown "store unavailable") dbGet
        (fun _ r => .ok r) [] { periods := [c8period], records := [] } 1).outcome
      = .error (.nameError "self"))
    ∧ ((process_payroll_period dbGet dbGet (fun _ r => .ok r) []
        { periods := [{ c8period with status := "cancelled" }], records := [] } 1).outcome
      = .error (.processorError "Period 1 has status cancelled, cannot process")) := by
  constructor <;> rfl

/-- When the re-fetched period is already `completed`, the task returns the
benign `already_completed` dict, leaves the store untouched, and never
instantiates the processor. -/
theorem task_on_completed_period :
    ∀ (fetchP : Store → Nat → Except Exc (Option Period))
      (procEmp : Nat → List (Nat × Nat) → Except Exc (List (Nat × Nat)))
      (employees : List Nat) (s : Store) (pid : Nat) (p : Period),
      s.periods.find? (fun q => q.id == pid) = some p →
      p.status = "completed" →
      process_payroll_period dbGet fetchP procEmp employees s pid =
        ⟨.ok { period_id := pid, status := "already_completed"
               message := some "Period was already processed", result := none },
          s, 0⟩ := by
  intro fetchP procEmp employees s pid p hfind hst
  unfold process_payroll_period dbGet
  rw [hfind]
  simp [hst]

/-- A successful `run_payroll` always leaves the store with the period
transitioned and the loop's records. -/
theorem run_payroll_ok_store :
    ∀ (fetch : Store → Nat → Except Exc (Option Period))
      (procEmp : Nat → List (Nat × Nat) → Except Exc (List (Nat × Nat)))
      (employees : List Nat) (s : Store) (pid : Nat) (sum : Summary) (s2 : Store),
      run_payroll fetch procEmp employees s pid = (.ok sum, s2) →
      s2 = { periods := completePeriods s.periods pid
             records := (processEmployees procEmp employees s.records).1 } := by
  intro fetch procEmp employees s pid sum s2 h
  unfold run_payroll at h
  cases hg : getPayrollPeriod fetch s pid with
  | error e0 => rw [hg] at h; simp at h
  | ok p =>
    rw [hg] at h
    simp only [Prod.mk.injEq] at h
    exact h.2.symm

/-- C1: calling `process_payroll_period` on a period whose status is
`completed` returns the benign `already_completed` outcome without raising,
without invoking the Payroll Processor (zero processor invocations),
without creating any record, and without a status transition (the store is
returned unchanged); in particular, when a first call on an active period
succeeds (completing it), a second call returns `already_completed` and
changes nothing. -/
theorem C1_single_run_idempotent :
    ∀ (fetchP : Store → Nat → Except Exc (Option Period))
      (procEmp : Nat → List (Nat × Nat) → Except Exc (List (Nat × Nat)))
      (employees : List Nat) (s : Store) (pid : Nat) (p : Period),
      s.periods.find? (fun q => q.id == pid) = some p →
      ((p.status = "completed" →
        process_payroll_period dbGet fetchP procEmp employees s pid =
          ⟨.ok { period_id := pid, status := "already_completed"
                 message := some "Period was already processed", result := none },
            s, 0⟩)
      ∧ (p.status = "active" →
        ∀ r, (process_payroll_period dbGet fetchP procEmp employees s pid).outcome = .ok r →
          r.status = "completed" →
          process_payroll_period dbGet fetchP procEmp employees
              (process_payroll_period dbGet fetchP procEmp employees s pid).store pid =
            ⟨.ok { period_id := pid, status := "already_completed"
                   message := some "Period was already processed", result := none },
              (process_payroll_period dbGet fetchP procEmp employees s pid).store, 0⟩)) := by
  intro fetchP procEmp employees s pid p hfind
  constructor
  · intro hst
    exact task_on_completed_period fetchP procEmp employees s pid p hfind hst
  · intro hact r hout hrs
    rcases hrp : run_payroll fetchP procEmp employees s pid with ⟨res, s2⟩
    cases res with
    | ok sum =>
      have hstore : (process_payroll_period dbGet fetchP procEmp employees s pid).store = s2 := by
        unfold process_payroll_period dbGet
        rw [hfind]
        simp [hact, hrp]
      have hs2 : s2 = { periods := completePeriods s.periods pid
                        records := (processEmployees procEmp employees s.records).1 } :=
        run_payroll_ok_store fetchP procEmp employees s pid sum s2 hrp
      have hfind2 : s2.periods.find? (fun q => q.id == pid)
          = some { p with status := "completed" } := by
        rw [hs2]
        exact find_completePeriods s.periods pid p hfind
      rw [hstore]
      exact task_on_completed_period fetchP procEmp employees s2 pid
        { p with status := "completed" } hfind2 rfl
    | error e =>
      exfalso
      unfold process_payroll_period dbGet at hout
      rw [hfind] at hout
      cases e <;> simp [hact, hrp] at hout

/-- C1 witness: a first call on the active period completes it; the second
call on the resulting store returns `already_completed` with the store
unchanged and zero processor invocations.  Also the direct
already-completed case on a completed period. -/
theorem C1_single_run_idempotent_witness :
    (process_payroll_period dbGet dbGet (fun _ r => .ok r) []
      { periods := [{ c1period with status := "completed" }], records := [] } 4 =
        ⟨.ok { period_id := 4, status := "already_completed"
               message := some "Period was already processed", result := none },
          { periods := [{ c1period with status := "completed" }], records := [] }, 0⟩)
    ∧ (process_payroll_period dbGet dbGet (fun _ r => .ok r) []
        (process_payroll_period dbGet dbGet (fun _ r => .ok r) []
          { periods := [c1period], records := [] } 4).store 4 =
        ⟨.ok { period_id := 4, status := "already_completed"
               message := some "Period was already processed", result := none },
          (process_payroll_period dbGet dbGet (fun _ r => .ok r) []
            { periods := [c1period], records := [] } 4).store, 0⟩) := by
  constructor
  · exact (C1_single_run_idempotent dbGet (fun _ r => .ok r) []
      { periods := [{ c1period with status := "completed" }], records := [] } 4
      { c1period with status := "completed" } (by decide)).1 rfl
  · exact (C1_single_run_idempotent dbGet (fun _ r => .ok r) []
      { periods := [c1period], records := [] } 4 c1period (by decide)).2 rfl
      { period_id := 4, status := "completed", message := none
        result := some { period_id := 4, processed_employees := 0
                         processing_errors := 0, error_details := []
                         status := "completed" } } rfl rfl

/-- Each loop iteration restores the lock key set: the `finally` block
deletes exactly the key the iteration set (and the other branches never
touch the cache). -/
theorem sweepStep_cache :
    ∀ (today : Int) (proc : Nat → Except Exc RunResult)
      (acc : SweepAcc) (p : Period),
      (sweepStep today proc acc p).cache = acc.cache := by
  intro today proc acc p
  unfold sweepStep
  cases h : is_due_for_automation p today with
  | error e => rfl
  | ok b =>
    cases b with
    | false => rfl
    | true =>
      by_cases hc : acc.cache.contains p.id = true
      · rw [if_pos hc]
      · rw [if_neg hc]
        exact List.erase_cons_head p.id acc.cache

/-- The whole per-period loop leaves the lock key set as it started. -/
theorem sweep_foldl_cache :
    ∀ (today : Int) (proc : Nat → Except Exc RunResult)
      (l : List Period) (acc : SweepAcc),
      (l.foldl (sweepStep today proc) acc).cache = acc.cache := by
  intro today proc l
  induction l with
  | nil => intro acc; rfl
  | cons q rest ih =>
    intro acc
    rw [List.foldl_cons, ih, sweepStep_cache]

/-- One iteration never removes an entry from the processed list. -/
theorem sweepStep_processed_mono :
    ∀ (today : Int) (proc : Nat → Except Exc RunResult)
      (acc : SweepAcc) (q : Period) (x : Nat × RunResult),
      x ∈ acc.processed → x ∈ (sweepStep today proc acc q).processed := by
  intro today proc acc q x hx
  unfold sweepStep
  cases h : is_due_for_automation q today with
  | error e => exact hx
  | ok b =>
    cases b with
    | false => exact hx
    | true =>
      by_cases hc : acc.cache.contains q.id = true
      · rw [if_pos hc]; exact hx
      · rw [if_neg hc]
        cases hp : proc q.id with
        | ok r => exact List.mem_append_left _ hx
        | error e => exact hx

/-- One iteration never removes an entry from the failed list. -/
theorem sweepStep_failed_mono :
    ∀ (today : Int) (proc : Nat → Except Exc RunResult)
      (acc : SweepAcc) (q : Period) (x : Nat × String),
      x ∈ acc.failed → x ∈ (sweepStep today proc acc q).failed := by
  intro today proc acc q x hx
  unfold sweepStep
  cases h : is_due_for_automation q today with
  | error e => exact List.mem_append_left _ hx
  | ok b =>
    cases b with
    | false => exact hx
    | true =>
      by_cases hc : acc.cache.contains q.id = true
      · rw [if_pos hc]; exact hx
      · rw [if_neg hc]
        cases hp : proc q.id with
        | ok r => exact hx
        | error e => exact List.mem_append_left _ hx

/-- A recorded processed entry survives the rest of the loop. -/
theorem sweep_foldl_processed_mem :
    ∀ (today : Int) (proc : Nat → Except Exc RunResult)
      (l : List Period) (acc : SweepAcc) (x : Nat × RunResult),
      x ∈ acc.processed → x ∈ (l.foldl (sweepStep today proc) acc).processed := by
  intro today proc l
  induction l with
  | nil => intro acc x hx; exact hx
  | cons q rest ih =>
    intro acc x hx
    rw [List.foldl_cons]
    exact ih _ x (sweepStep_processed_mono today proc acc q x hx)

/-- A recorded failed entry survives the rest of the loop. -/
theorem sweep_foldl_failed_mem :
    ∀ (today : Int) (proc : Nat → Except Exc RunResult)
      (l : List Period) (acc : SweepAcc) (x : Nat × String),
      x ∈ acc.failed → x ∈ (l.foldl (sweepStep today proc) acc).failed := by
  intro today proc l
  induction l with
  | nil => intro acc x hx; exact hx
  | cons q rest ih =>
    intro acc x hx
    rw [List.foldl_cons]
    exact ih _ x (sweepStep_failed_mono today proc acc q x hx)

/-- Every due, unlocked period in the loop ends up recorded: in `failed`
with its error message when its processing raises, in `processed` with its
result when it returns. -/
theorem sweep_foldl_records :
    ∀ (today : Int) (proc : Nat → Except Exc RunResult)
      (l : List Period) (acc : SweepAcc) (p : Period),
      p ∈ l → is_due_for_automation p today = .ok true →
      acc.cache.contains p.id = false →
      (∀ e, proc p.id = .error e →
        (p.id, excMsg e) ∈ (l.foldl (sweepStep today proc) acc).failed)
      ∧ (∀ r, proc p.id = .ok r →
        (p.id, r) ∈ (l.foldl (sweepStep today proc) acc).processed) := by
  intro today proc l
  induction l with
  | nil => intro acc p hp; simp at hp
  | cons q rest ih =>
    intro acc p hp hdue hcache
    have hc : ¬ acc.cache.contains p.id = true := by
      rw [hcache]
      exact Bool.false_ne_true
    rw [List.foldl_cons]
    rcases List.mem_cons.mp hp with heq | hmem
    · subst heq
      constructor
      · intro e he
        apply sweep_foldl_failed_mem
        unfold sweepStep
        rw [hdue, if_neg hc, he]
        exact List.mem_append_right _ (List.mem_singleton.mpr rfl)
      · intro r hr
        apply sweep_foldl_processed_mem
        unfold sweepStep
        rw [hdue, if_neg hc, hr]
        exact List.mem_append_right _ (List.mem_singleton.mpr rfl)
    · exact ih (sweepStep today proc acc q) p hmem hdue
        (by rw [sweepStep_cache]; exact hcache)

/-- C3: the sweep isolates per-period failures.  With a successful fetch the
sweep always returns a report (never raises); the final lock key set equals
the initial one (every acquired lock was released by the guaranteed
`finally` block before moving on); every eligible period that is due and
unlocked is recorded — in `failed` with its error message if its processing
raised any exception, in `processed` with its result otherwise — so one
period's failure never prevents the others from being attempted and
recorded; and only a failure of the initial fetch aborts the sweep,
re-raising the fetch error. -/
theorem C3_sweep_isolation :
    ∀ (today : Int) (proc : Nat → Except Exc RunResult)
      (periods : List Period) (cache0 : List Nat),
      (∃ rep cacheF,
        auto_run_payroll today proc (.ok periods) cache0 = .ok (rep, cacheF))
      ∧ (∀ rep cacheF,
          auto_run_payroll today proc (.ok periods) cache0 = .ok (rep, cacheF) →
          cacheF = cache0
          ∧ ∀ p, p ∈ periods → p.automation_enabled = true → p.status = "active" →
              is_due_for_automation p today = .ok true →
              cache0.contains p.id = false →
              (∀ e, proc p.id = .error e → (p.id, excMsg e) ∈ rep.failed)
              ∧ (∀ r, proc p.id = .ok r → (p.id, r) ∈ rep.processed))
      ∧ (∀ e, auto_run_payroll today proc (.error e) cache0 = .error e) := by
  intro today proc periods cache0
  refine ⟨⟨_, _, rfl⟩, ?_, fun e => rfl⟩
  intro rep cacheF h
  unfold auto_run_payroll at h
  simp only [Except.ok.injEq, Prod.mk.injEq] at h
  obtain ⟨hrep, hcf⟩ := h
  constructor
  · rw [← hcf]
    exact sweep_foldl_cache today proc _ _
  · intro p hp hen hst hdue hcache
    have hfil : p ∈ periods.filter (fun p => p.automation_enabled && p.status == "active") :=
      List.mem_filter.mpr ⟨hp, by simp [hen, hst]⟩
    have hrec := sweep_foldl_records today proc
      (periods.filter (fun p => p.automation_enabled && p.status == "active"))
      { cache := cache0, processed := [], skipped := [], failed := [] }
      p hfil hdue hcache
    constructor
    · intro e he
      have := hrec.1 e he
      rw [← hrep]
      exact this
    · intro r hr
      have := hrec.2 r hr
      rw [← hrep]
      exact this

/-- C3 witness: with period 2 raising, periods 1 and 3 are still processed
and recorded, period 2 lands in `failed` with its message, all locks are
released (final key set empty), and a failing fetch aborts the sweep with
the same error. -/
theorem C3_sweep_isolation_witness :
    (auto_run_payroll 10 c3proc (.ok c3periods) [] = .ok (c3rep, []))
    ∧ ((2, "Processing failed") ∈ c3rep.failed)
    ∧ ((1, { period_id := 1, status := "completed", message := none, result := none })
        ∈ c3rep.processed)
    ∧ ((3, { period_id := 3, status := "completed", message := none, result := none })
        ∈ c3rep.processed)
    ∧ (auto_run_payroll 10 c3proc (.error (.other "db down")) [] = .error (.other "db down")) := by
  have h := C3_sweep_isolation 10 c3proc c3periods []
  have hrun : auto_run_payroll 10 c3proc (.ok c3periods) [] = .ok (c3rep, []) := by rfl
  have hmem := (h.2.1 c3rep [] hrun).2
  refine ⟨hrun, ?_, ?_, ?_, h.2.2 (.other "db down")⟩
  · exact (hmem c3p2 (by decide) rfl rfl rfl rfl).1 (.other "Processing failed") rfl
  · exact (hmem c3p1 (by decide) rfl rfl rfl rfl).2
      { period_id := 1, status := "completed", message := none, result := none } rfl
  · exact (hmem c3p3 (by decide) rfl rfl rfl rfl).2
      { period_id := 3, status := "completed", message := none, result := none } rfl
